import Mathlib

/-!
Verification of the relax-app repository (a single-page "repeat a relaxing
word" counter with cloud-backed session history and a day-activity heatmap).

The development shallowly embeds the state and event handlers of
`src/web/src/App.tsx` (the current revision of the application component):

* A local calendar day is modelled as an `Int` day number (`LocalDay`).
  The source derives a `YYYY-MM-DD` string key from a `Date` in the caller's
  local timezone via `getLocalDateKey`; that key determines, and is
  determined by, the local calendar day, so the embedding identifies the
  date key with the day number.
* Firestore documents of the `history` collection are `HistoryDoc` records;
  a `timestamp` of `none` models a missing/unresolved server timestamp.
* `statsMap` and `generateDays` embed the heatmap aggregation of
  `fetchHistory` (App.tsx lines 96-127): count sessions per local day,
  then emit one cell for each of the 182 days ending at "today".
* `AppState`/`Action`/`step` embed the component state and its event
  handlers (`handleIncrement`, `handleReset`, `handleLostFocus`,
  `handleSave`, `handleLogin`, `handleLogout`, theme toggle, and
  `fetchHistory` as a state transition).  The Firestore `history`
  collection is carried in the state (`store`) so that the application's
  writes to it can be reasoned about.
-/

/-- A calendar day in the caller's local timezone, at day granularity,
as a day number.  `getLocalDateKey` in the source renders such a day as a
zero-padded `YYYY-MM-DD` string, which is a bijective encoding of the day,
so the embedding uses the day number itself as the bucket key. -/
abbrev LocalDay := Int

/-- One document of the Firestore `history` collection (interface
`HistoryItem` in App.tsx, minus the Firestore-assigned document id).
`timestamp` is the creation time resolved to a local calendar day;
`none` models a missing/unresolved timestamp (the source guards with
`if (data.timestamp)`).  The optional `word` and `lostFocusCount` fields
were absent in earlier revisions of the schema. -/
structure HistoryDoc where
  count : Nat
  word : Option String := none
  lostFocusCount : Option Nat := none
  timestamp : Option LocalDay
  userId : String
deriving DecidableEq, Repr

/-- Does record `r` carry a resolved timestamp whose local calendar day
is `d`?  (`getLocalDateKey(data.timestamp.toDate()) === dateKey d`.) -/
def matchesDay (d : LocalDay) (r : HistoryDoc) : Bool :=
  decide (r.timestamp = some d)

/-- One step of the `querySnapshotHeatmap.docs.forEach` loop
(App.tsx lines 102-109): if the document has a timestamp, increment the
bucket of its local date key (`statsMap[dateKey] = (statsMap[dateKey] || 0) + 1`);
otherwise leave the map unchanged. -/
def insertDoc (m : LocalDay → Nat) (r : HistoryDoc) : LocalDay → Nat :=
  match r.timestamp with
  | none => m
  | some day => fun k => if k = day then m k + 1 else m k

/-- The `statsMap` built by `fetchHistory` (App.tsx lines 96-109): a
per-day session count, starting from the empty map (every day 0, matching
the `|| 0` read-out). -/
def statsMap (docs : List HistoryDoc) : LocalDay → Nat :=
  docs.foldl insertDoc (fun _ => 0)

/-- One data point of the heatmap series (`{ date, count, dayIndex }` in
App.tsx line 112). -/
structure DayCell where
  date : LocalDay
  count : Nat
  dayIndex : Nat
deriving DecidableEq, Repr

/-- The weekday of day `d` (`d.getDay()`), with the day-number epoch
chosen on a Sunday. -/
def weekday (d : LocalDay) : Nat := (d % 7).toNat

/-- The window-generation loop of `fetchHistory` (App.tsx lines 111-127):
for `i = 181` down to `0`, emit the cell for day `today - i` with its
accumulated count (or 0).  The loop iteration with counter `i` is the
list entry at position `j = 181 - i`. -/
def generateDays (today : LocalDay) (stats : LocalDay → Nat) : List DayCell :=
  (List.range 182).map fun j =>
    let d : LocalDay := today - ((181 - j : Nat) : Int)
    { date := d, count := stats d, dayIndex := weekday d }

/-- Reading the accumulated `statsMap` at a day gives the number of
fetched records whose resolved local date is that day. -/
theorem foldl_insertDoc_apply (docs : List HistoryDoc) (m : LocalDay → Nat)
    (d : LocalDay) :
    docs.foldl insertDoc m d = m d + docs.countP (matchesDay d) := by
  induction docs generalizing m with
  | nil => simp
  | cons r rest ih =>
    rw [List.foldl_cons, ih, List.countP_cons]
    unfold insertDoc matchesDay
    cases h : r.timestamp with
    | none => simp [h]
    | some day =>
      by_cases hd : d = day
      · subst hd; simp [h, Nat.add_comm, Nat.add_assoc, Nat.add_left_comm]
      · have : ¬ some day = some d := by
          intro hc; exact hd (Option.some.inj hc).symm
        simp [h, hd, this]

theorem statsMap_apply (docs : List HistoryDoc) (d : LocalDay) :
    statsMap docs d = docs.countP (matchesDay d) := by
  unfold statsMap
  rw [foldl_insertDoc_apply]
  exact Nat.zero_add _

/-- The three selectable words (`const WORDS = ['relax', 'dont think',
'dont care']` in App.tsx). -/
inductive Word where
  | relax
  | dontThink
  | dontCare
deriving DecidableEq, Repr

/-- The per-word counter state (`Record<WordType, number>` initialised to
all zeros in App.tsx lines 29-33). -/
structure Counts where
  relax : Nat
  dontThink : Nat
  dontCare : Nat
deriving DecidableEq, Repr

/-- Read one word's counter (`counts[w]`). -/
def Counts.get (c : Counts) : Word → Nat
  | .relax => c.relax
  | .dontThink => c.dontThink
  | .dontCare => c.dontCare

/-- Functional update of one word's counter
(`{ ...prev, [w]: v }` in the `setCounts` updaters). -/
def Counts.set (c : Counts) (w : Word) (v : Nat) : Counts :=
  match w with
  | .relax => { c with relax := v }
  | .dontThink => { c with dontThink := v }
  | .dontCare => { c with dontCare := v }

/-- Render a word as its source string. -/
def Word.str : Word → String
  | .relax => "relax"
  | .dontThink => "dont think"
  | .dontCare => "dont care"

/-- The state of the `App` component, together with the backing Firestore
`history` collection (`store`) so that the application's writes to the
session store are part of the model.  Transient UI-animation state
(`bump`, `isSaving`, `showAllHistory`) has no bearing on the verified
properties and is omitted. -/
structure AppState where
  counts : Counts
  lostFocusCount : Nat
  currentWord : Word
  user : Option String
  history : List HistoryDoc
  heatmapData : List DayCell
  isDark : Bool
  storedTheme : String
  store : List HistoryDoc
deriving DecidableEq, Repr

/-- Descending order on server timestamps for the `orderBy('timestamp',
'desc')` query clause; a missing timestamp sorts last. -/
def tsGE (a b : Option LocalDay) : Bool :=
  match a, b with
  | some x, some y => decide (y ≤ x)
  | some _, none => true
  | none, some _ => false
  | none, none => true

/-- Insert a document into a timestamp-descending list. -/
def insertByTs (r : HistoryDoc) : List HistoryDoc → List HistoryDoc
  | [] => [r]
  | x :: xs => if tsGE r.timestamp x.timestamp then r :: x :: xs
               else x :: insertByTs r xs

/-- Sort documents by timestamp, most recent first. -/
def sortByTsDesc (l : List HistoryDoc) : List HistoryDoc :=
  l.foldr insertByTs []

/-- The Firestore query `where('userId','==',uid), orderBy('timestamp',
'desc'), limit(n)` evaluated against the collection. -/
def queryByUser (store : List HistoryDoc) (uid : String) (n : Nat) :
    List HistoryDoc :=
  (sortByTsDesc (store.filter (fun r => r.userId == uid))).take n

/-- `handleIncrement` (App.tsx lines 183-194): bump the current word's
counter by one.  The `bump` animation flag and the vibration call are
UI effects outside the model. -/
def handleIncrement (s : AppState) : AppState :=
  { s with counts := s.counts.set s.currentWord (s.counts.get s.currentWord + 1) }

/-- `handleReset` (App.tsx lines 196-202): zero the current word's counter
and the lost-focus counter. -/
def handleReset (s : AppState) : AppState :=
  { s with counts := s.counts.set s.currentWord 0, lostFocusCount := 0 }

/-- `handleLostFocus` (App.tsx lines 204-209). -/
def handleLostFocus (s : AppState) : AppState :=
  { s with lostFocusCount := s.lostFocusCount + 1 }

/-- `handleSave` (App.tsx lines 211-235): return immediately when the
current count is zero or no user is signed in; otherwise `addDoc` a new
record `{count, word, lostFocusCount, timestamp: serverTimestamp(),
userId}` and on success zero the counters.  `writeOk` models whether the
`addDoc` promise resolves; `serverTime` is the server-assigned timestamp
resolved to a local day.  On rejection the handler only alerts — no state
changes.  The `fetchHistory()` the handler triggers on success is an
asynchronous follow-up step, modelled as a separate `Action.fetch`. -/
def handleSave (writeOk : Bool) (serverTime : Option LocalDay)
    (s : AppState) : AppState :=
  if s.counts.get s.currentWord = 0 then s
  else match s.user with
  | none => s
  | some uid =>
    if writeOk then
      { s with
        store := s.store ++ [{ count := s.counts.get s.currentWord,
                               word := some s.currentWord.str,
                               lostFocusCount := some s.lostFocusCount,
                               timestamp := serverTime,
                               userId := uid }],
        counts := s.counts.set s.currentWord 0,
        lostFocusCount := 0 }
    else s

/-- `fetchHistory` (App.tsx lines 67-133) as a state transition.  With no
user it clears the history list and returns (the heatmap is left as is).
Otherwise it runs two queries inside one `try`: the recent-details query
(limit 10) and the heatmap query (limit 500), aggregated through
`statsMap`/`generateDays`.  `okRecent`/`okHeatmap` model whether each
`getDocs` promise resolves; a rejection aborts to the `catch`, which only
logs, so whatever was set before the failing call is kept and nothing
else is touched. -/
def fetchHistoryStep (okRecent okHeatmap : Bool) (today : LocalDay)
    (s : AppState) : AppState :=
  match s.user with
  | none => { s with history := [] }
  | some uid =>
    if okRecent then
      let s1 := { s with history := queryByUser s.store uid 10 }
      if okHeatmap then
        { s1 with heatmapData :=
            generateDays today (statsMap (queryByUser s.store uid 500)) }
      else s1
    else s

/-- Theme-toggle click (App.tsx line 251) combined with the theme effect
(lines 56-64) that persists the flipped flag to `localStorage`. -/
def toggleTheme (s : AppState) : AppState :=
  let dark := !s.isDark
  { s with isDark := dark, storedTheme := if dark then "dark" else "light" }

/-- Successful `signInWithPopup` observed through the auth listener;
on failure (`ok = false`) the error is logged and nothing changes. -/
def handleLogin (uid : String) (ok : Bool) (s : AppState) : AppState :=
  if ok then { s with user := some uid } else s

/-- `handleLogout` (App.tsx lines 169-181): on success the counters are
cleared and the auth listener sets the user to `null`. -/
def handleLogout (ok : Bool) (s : AppState) : AppState :=
  if ok then
    { s with user := none, counts := ⟨0, 0, 0⟩, lostFocusCount := 0 }
  else s

/-- The user-interface events and asynchronous completions that drive the
component, with their externally-determined outcomes as parameters. -/
inductive Evt where
  | increment
  | reset
  | lostFocus
  | selectWord (w : Word)
  | toggleDark
  | save (writeOk : Bool) (serverTime : Option LocalDay)
  | login (uid : String) (ok : Bool)
  | logout (ok : Bool)
  | fetch (okRecent okHeatmap : Bool) (today : LocalDay)
deriving DecidableEq, Repr

/-- The event-step function: single-threaded dispatch of one event. -/
def step : Evt → AppState → AppState
  | .increment, s => handleIncrement s
  | .reset, s => handleReset s
  | .lostFocus, s => handleLostFocus s
  | .selectWord w, s => { s with currentWord := w }
  | .toggleDark, s => toggleTheme s
  | .save ok t, s => handleSave ok t s
  | .login uid ok, s => handleLogin uid ok s
  | .logout ok, s => handleLogout ok s
  | .fetch okR okH today, s => fetchHistoryStep okR okH today s

/-- Run a sequence of events from a state. -/
def run (s : AppState) (acts : List Evt) : AppState :=
  acts.foldl (fun t a => step a t) s

/-- Component mount: `isDark` is initialised from the persisted theme
(`saved ? saved === 'dark' : prefers-color-scheme`, where an empty saved
string is falsy in JavaScript), and the theme effect immediately persists
the resulting flag; counters start at zero, no user, empty lists.
`store0` is whatever the backend collection already holds. -/
def initApp (savedTheme : Option String) (prefersDark : Bool)
    (store0 : List HistoryDoc) : AppState :=
  let dark := match savedTheme with
    | some t => if t = "" then prefersDark else t = "dark"
    | none => prefersDark
  { counts := ⟨0, 0, 0⟩, lostFocusCount := 0, currentWord := .relax,
    user := none, history := [], heatmapData := [],
    isDark := dark, storedTheme := if dark then "dark" else "light",
    store := store0 }

/-- Every emitted heatmap cell carries the accumulated count of its own
date. -/
theorem mem_generateDays_count (today : LocalDay) (stats : LocalDay → Nat) :
    ∀ cell ∈ generateDays today stats, cell.count = stats cell.date := by
  intro cell hc
  unfold generateDays at hc
  obtain ⟨j, _, rfl⟩ := List.mem_map.mp hc
  rfl

/-- The dates emitted by the window loop, in order: `today - 181 + j` at
position `j`. -/
theorem generateDays_dates (today : LocalDay) (stats : LocalDay → Nat) :
    (generateDays today stats).map DayCell.date
      = (List.range 182).map (fun j : Nat => today - 181 + (j : Int)) := by
  unfold generateDays
  rw [List.map_map]
  apply List.map_congr_left
  intro j hj
  have hj' : j ≤ 181 := Nat.lt_succ_iff.mp (List.mem_range.mp hj)
  simp only [Function.comp_apply]
  have hcast : ((181 - j : Nat) : Int) = 181 - (j : Int) := by
    push_cast [hj']
    ring
  show today - ((181 - j : Nat) : Int) = today - 181 + (j : Int)
  rw [hcast]
  ring

/-- C1: For every input record set, the aggregated daily-bucket output
covers a contiguous trailing window of calendar days ending at today (in
the caller's local timezone): the emitted dates are exactly
`today - 181, …, today` in order, so every calendar day of the window
appears exactly once, and a day matched by no record appears with a count
of zero. -/
theorem heatmap_window_contiguous (docs : List HistoryDoc) (today : LocalDay) :
    (generateDays today (statsMap docs)).map DayCell.date
        = (List.range 182).map (fun j : Nat => today - 181 + (j : Int))
    ∧ ((generateDays today (statsMap docs)).map DayCell.date).Nodup
    ∧ ∀ cell ∈ generateDays today (statsMap docs),
        docs.countP (matchesDay cell.date) = 0 → cell.count = 0 := by
  refine ⟨generateDays_dates today (statsMap docs), ?_, ?_⟩
  · rw [generateDays_dates today (statsMap docs)]
    refine List.Nodup.map_on ?_ (List.nodup_range 182)
    intro x _ y _ hxy
    have h2 : (x : Int) = y := by exact add_left_cancel hxy
    exact_mod_cast h2
  · intro cell hcell hzero
    rw [mem_generateDays_count today (statsMap docs) cell hcell,
      statsMap_apply, hzero]

/-- Witness for C1 at a concrete input: the empty record set with
`today = 0`; the oldest emitted cell is day `-181` with count zero. -/
theorem heatmap_window_contiguous_witness :
    ({ date := -181, count := 0, dayIndex := 1 } : DayCell).count = 0 :=
  (heatmap_window_contiguous [] 0).2.2 _ (by decide) (by decide)

/-- C2: For every input record set and every cell of the generated
window, the cell's count equals the number of input records whose
timestamp resolves to that cell's local calendar day — one per record,
regardless of the record's repeat count. -/
theorem heatmap_cell_count (docs : List HistoryDoc) (today : LocalDay) :
    ∀ cell ∈ generateDays today (statsMap docs),
      cell.count = docs.countP (matchesDay cell.date) := by
  intro cell hcell
  rw [mem_generateDays_count today (statsMap docs) cell hcell, statsMap_apply]

/-- Witness for C2 at a concrete input: one record (repeat count 7) on
day 0 with `today = 0`; the newest cell has session count 1. -/
theorem heatmap_cell_count_witness :
    ({ date := 0, count := 1, dayIndex := 0 } : DayCell).count
      = [({ count := 7, timestamp := some 0, userId := "u" } : HistoryDoc)].countP
          (matchesDay ({ date := 0, count := 1, dayIndex := 0 } : DayCell).date) :=
  heatmap_cell_count [{ count := 7, timestamp := some 0, userId := "u" }] 0 _
    (by decide)

/-- C5: Given zero input records, the aggregation returns the full-length
182-day window in which every day's count is zero. -/
theorem heatmap_empty_input (today : LocalDay) :
    (generateDays today (statsMap [])).length = 182
    ∧ (generateDays today (statsMap [])).all (fun c => c.count == 0) = true := by
  constructor
  · simp [generateDays]
  · simp only [List.all_eq_true]
    intro c hc
    have h := mem_generateDays_count today (statsMap []) c hc
    have hz : statsMap [] c.date = 0 := rfl
    simp [h, hz]

/-- C6: records with a missing/unresolved timestamp contribute to no
daily bucket (prepending one leaves the accumulated map unchanged), and
two records whose timestamps fall on the same local calendar day
increment the same bucket (the day's count rises by two). -/
theorem heatmap_skip_missing_and_ties (docs : List HistoryDoc)
    (r r1 r2 : HistoryDoc) (d : LocalDay) :
    (r.timestamp = none → statsMap (r :: docs) = statsMap docs)
    ∧ (r1.timestamp = some d → r2.timestamp = some d →
        statsMap (r1 :: r2 :: docs) d = statsMap docs d + 2) := by
  constructor
  · intro h
    show (r :: docs).foldl insertDoc (fun _ => 0) = _
    rw [List.foldl_cons]
    have hskip : insertDoc (fun _ => 0) r = (fun _ => 0) := by
      unfold insertDoc
      rw [h]
    rw [hskip]
    rfl
  · intro h1 h2
    rw [statsMap_apply, statsMap_apply, List.countP_cons, List.countP_cons]
    simp [matchesDay, h1, h2]

/-- Witness for C6 at concrete inputs: a timestamp-less record changes
nothing, and two records on day 0 put the day-0 bucket at 2. -/
theorem heatmap_skip_missing_and_ties_witness :
    statsMap [({ count := 1, timestamp := none, userId := "u" } : HistoryDoc)]
        = statsMap []
    ∧ statsMap [({ count := 1, timestamp := some 0, userId := "u" } : HistoryDoc),
                ({ count := 9, timestamp := some 0, userId := "v" } : HistoryDoc)] 0
        = statsMap [] 0 + 2 :=
  ⟨(heatmap_skip_missing_and_ties [] ⟨1, none, none, none, "u"⟩
      ⟨1, none, none, some 0, "u"⟩ ⟨9, none, none, some 0, "v"⟩ 0).1 rfl,
   (heatmap_skip_missing_and_ties [] ⟨1, none, none, none, "u"⟩
      ⟨1, none, none, some 0, "u"⟩ ⟨9, none, none, some 0, "v"⟩ 0).2 rfl rfl⟩

/-- C4: with a zero current counter, the save operation is a no-op: the
whole state (counters, lost-focus count, history, heatmap, store) is
unchanged — `handleSave` returns before `addDoc`. -/
theorem save_zero_noop (writeOk : Bool) (serverTime : Option LocalDay)
    (s : AppState) (h : s.counts.get s.currentWord = 0) :
    handleSave writeOk serverTime s = s := by
  unfold handleSave
  rw [if_pos h]

/-- Witness for C4: saving from the freshly-mounted state (all counters
zero) changes nothing. -/
theorem save_zero_noop_witness :
    handleSave true (some 0) (initApp none false []) = initApp none false [] :=
  save_zero_noop true (some 0) (initApp none false []) rfl

/-- C7: session records are immutable after creation: every event either
leaves the session store untouched, or is a save event that appends one
new record; no event rewrites or removes an existing record. -/
theorem store_append_only (a : Evt) (s : AppState) :
    (step a s).store = s.store
    ∨ ∃ w t r, a = Evt.save w t ∧ (step a s).store = s.store ++ [r] := by
  cases a with
  | increment => exact Or.inl rfl
  | reset => exact Or.inl rfl
  | lostFocus => exact Or.inl rfl
  | selectWord w => exact Or.inl rfl
  | toggleDark => exact Or.inl rfl
  | login uid ok =>
    left
    show (handleLogin uid ok s).store = s.store
    unfold handleLogin
    cases ok <;> rfl
  | logout ok =>
    left
    show (handleLogout ok s).store = s.store
    unfold handleLogout
    cases ok <;> rfl
  | fetch okR okH today =>
    left
    show (fetchHistoryStep okR okH today s).store = s.store
    unfold fetchHistoryStep
    cases hu : s.user with
    | none => rfl
    | some uid => cases okR <;> cases okH <;> rfl
  | save ok t =>
    have hstep : step (Evt.save ok t) s = handleSave ok t s := rfl
    rw [hstep]
    unfold handleSave
    by_cases h0 : s.counts.get s.currentWord = 0
    · left
      rw [if_pos h0]
    · rw [if_neg h0]
      cases hu : s.user with
      | none => exact Or.inl rfl
      | some uid =>
        cases ok with
        | false => exact Or.inl rfl
        | true =>
          right
          exact ⟨true, t,
            { count := s.counts.get s.currentWord,
              word := some s.currentWord.str,
              lostFocusCount := some s.lostFocusCount,
              timestamp := t, userId := uid }, rfl, rfl⟩

/-- C10: the save operation either writes nothing, or appends exactly one
record whose `count` field is the current counter value — necessarily
strictly positive, since a zero counter returns before the write. -/
theorem saved_record_count_positive (writeOk : Bool)
    (serverTime : Option LocalDay) (s : AppState) :
    (handleSave writeOk serverTime s).store = s.store
    ∨ ∃ r, (handleSave writeOk serverTime s).store = s.store ++ [r]
        ∧ r.count = s.counts.get s.currentWord ∧ 1 ≤ r.count := by
  unfold handleSave
  by_cases h0 : s.counts.get s.currentWord = 0
  · left
    rw [if_pos h0]
  · rw [if_neg h0]
    cases hu : s.user with
    | none => exact Or.inl rfl
    | some uid =>
      cases writeOk with
      | false => exact Or.inl rfl
      | true =>
        right
        exact ⟨{ count := s.counts.get s.currentWord,
                 word := some s.currentWord.str,
                 lostFocusCount := some s.lostFocusCount,
                 timestamp := serverTime, userId := uid },
          rfl, rfl, Nat.pos_of_ne_zero h0⟩

/-- The persisted theme flag always mirrors the in-memory flag: this is
what the theme effect (App.tsx lines 56-64) maintains. -/
def themeConsistent (s : AppState) : Prop :=
  s.storedTheme = if s.isDark then "dark" else "light"

theorem themeConsistent_init (saved : Option String) (prefers : Bool)
    (store0 : List HistoryDoc) : themeConsistent (initApp saved prefers store0) :=
  rfl

theorem themeConsistent_step (a : Evt) (s : AppState)
    (h : themeConsistent s) : themeConsistent (step a s) := by
  cases a with
  | increment => exact h
  | reset => exact h
  | lostFocus => exact h
  | selectWord w => exact h
  | toggleDark => rfl
  | login uid ok =>
    show themeConsistent (handleLogin uid ok s)
    unfold handleLogin
    cases ok <;> exact h
  | logout ok =>
    show themeConsistent (handleLogout ok s)
    unfold handleLogout
    cases ok <;> exact h
  | fetch okR okH today =>
    show themeConsistent (fetchHistoryStep okR okH today s)
    unfold fetchHistoryStep
    cases hu : s.user with
    | none => exact h
    | some uid => cases okR <;> cases okH <;> exact h
  | save ok t =>
    show themeConsistent (handleSave ok t s)
    unfold handleSave
    by_cases h0 : s.counts.get s.currentWord = 0
    · rw [if_pos h0]
      exact h
    · rw [if_neg h0]
      cases hu : s.user with
      | none => exact h
      | some uid => cases ok <;> exact h

theorem themeConsistent_run (s : AppState) (acts : List Evt)
    (h : themeConsistent s) : themeConsistent (run s acts) := by
  induction acts generalizing s with
  | nil => exact h
  | cons a rest ih => exact ih (step a s) (themeConsistent_step a s h)

/-- C8: from every startup (any persisted preference value, any system
color-scheme preference, any backend contents) and after any sequence of
events, toggling the theme twice returns the persisted "dark"/"light"
preference to the value it had before the two toggles. -/
theorem theme_toggle_twice_id (saved : Option String) (prefers : Bool)
    (store0 : List HistoryDoc) (acts : List Evt) :
    (step Evt.toggleDark (step Evt.toggleDark
        (run (initApp saved prefers store0) acts))).storedTheme
      = (run (initApp saved prefers store0) acts).storedTheme := by
  have h : themeConsistent (run (initApp saved prefers store0) acts) :=
    themeConsistent_run _ _ (themeConsistent_init saved prefers store0)
  show (toggleTheme (toggleTheme (run (initApp saved prefers store0) acts))).storedTheme = _
  unfold toggleTheme
  simp only [Bool.not_not]
  exact h.symm

/-- C9: incrementing the counter any number of times and then resetting
leaves the displayed count — the selected word's counter — at zero. -/
theorem increment_then_reset_zero (s : AppState) (n : Nat) :
    (step Evt.reset ((step Evt.increment)^[n] s)).counts.get
      ((step Evt.reset ((step Evt.increment)^[n] s)).currentWord) = 0 := by
  show ((((step Evt.increment)^[n] s).counts.set
      ((step Evt.increment)^[n] s).currentWord 0).get
        ((step Evt.increment)^[n] s).currentWord) = 0
  cases ((step Evt.increment)^[n] s).currentWord <;> rfl

/-- A state in which a previous fetch already populated the view: one
history row and one heatmap cell, for the signed-in user "u". -/
def exFetchState : AppState :=
  { counts := ⟨0, 0, 0⟩, lostFocusCount := 0, currentWord := .relax,
    user := some "u",
    history := [{ count := 3, timestamp := some 0, userId := "u" }],
    heatmapData := [{ date := 0, count := 1, dayIndex := 0 }],
    isDark := false, storedTheme := "light",
    store := [{ count := 3, timestamp := some 0, userId := "u" }] }

/-- Counterexample to C3 as stated: when the fetch fails from a state the
view had already populated, the history list and daily buckets are NOT
empty — the `catch` only logs, clearing nothing. -/
theorem fetch_failure_cex :
    ¬(((step (Evt.fetch false true 0) exFetchState).history = [])
      ∧ ((step (Evt.fetch false true 0) exFetchState).heatmapData = [])) := by
  decide

/-- C3 amended: when a history fetch fails, the failure is caught (no
retry) and nothing is cleared: a failure of the first (recent-sessions)
query leaves the whole state unchanged, and a failure of the heatmap
query leaves the daily buckets unchanged; the view therefore shows "no
data" only if no data had been loaded before the failure. -/
theorem fetch_failure_keeps_state (s : AppState) (uid : String)
    (today : LocalDay) (okHeatmap : Bool) (h : s.user = some uid) :
    step (Evt.fetch false okHeatmap today) s = s
    ∧ (step (Evt.fetch true false today) s).heatmapData = s.heatmapData := by
  constructor
  · show fetchHistoryStep false okHeatmap today s = s
    unfold fetchHistoryStep
    rw [h]
    rfl
  · show (fetchHistoryStep true false today s).heatmapData = s.heatmapData
    unfold fetchHistoryStep
    rw [h]
    rfl

/-- Witness for C3's amended statement at the concrete populated state. -/
theorem fetch_failure_keeps_state_witness :
    step (Evt.fetch false true 0) exFetchState = exFetchState
    ∧ (step (Evt.fetch true false 0) exFetchState).heatmapData
        = exFetchState.heatmapData :=
  fetch_failure_keeps_state exFetchState "u" 0 true rfl
